import Mathlib

/-!
# Tango.c: the public API of the SMB client, embedded in Lean

A shallow embedding of `Classes/Tango.c`.

* A C `char` array is a `List Nat` of byte values whose length is the size of
  the array; a pointer into it is the array together with an offset.
* A library call that would read or write outside its array is undefined
  behaviour in C; the embedding returns `none` (or `Outcome.undefined`) there.
* The SMB commands (`_tango_NEGOTIATE_PROTOCOL`, `_tango_ECHO`, ...) live in
  other translation units.  They are taken as parameters (`Env`): arbitrary
  functions from the state they receive to their `int` result and the state
  they leave behind.  Every call the API issues is appended to a trace.
-/

namespace Tango

/-! ## Bytes and C strings -/

/-- The terminator of a C string. -/
def NUL : Nat := 0

/-- The byte of the backslash character. -/
def BACKSLASH : Nat := 92

/-- The byte of the star character. -/
def STAR : Nat := 42

/-- The string starting at offset `off` of the array `m`: the bytes before the
first NUL.  `none` when there is no NUL from `off` to the end of the array. -/
def cstr (m : List Nat) (off : Nat) : Option (List Nat) :=
  if NUL ∈ m.drop off then some ((m.drop off).takeWhile (fun b => b != NUL)) else none

/-- C `strlen(m + off)`. -/
def strlen (m : List Nat) (off : Nat) : Option Nat :=
  (cstr m off).map List.length

/-- Store `bytes` at `m[off ..]`; `none` when the store leaves the array. -/
def writeAt (m : List Nat) (off : Nat) (bytes : List Nat) : Option (List Nat) :=
  if off + bytes.length ≤ m.length then
    some (m.take off ++ bytes ++ m.drop (off + bytes.length))
  else none

/-- C `strcpy(dst + off, s)` for a string `s` already read from its source:
stores the bytes of `s` and the terminator. -/
def strcpy (dst : List Nat) (off : Nat) (s : List Nat) : Option (List Nat) :=
  writeAt dst off (s ++ [NUL])

/-- C `strncpy(dst, s, n)` for a string `s` already read from its source:
stores exactly `n` bytes, those of `s` and then NUL padding. -/
def strncpy (dst : List Nat) (s : List Nat) (n : Nat) : Option (List Nat) :=
  writeAt dst 0 ((s ++ List.replicate n NUL).take n)

/-- C `strchr(s + off, c)` on the string `s`, for `c` other than NUL: the index
in `s` of the first `c` at or after `off`, `none` for a NULL result. -/
def strchr (s : List Nat) (off : Nat) (c : Nat) : Option Nat :=
  if c ∈ s.drop off then some (off + (s.drop off).indexOf c) else none

/-! ## Data model (`Tango.h`, `TangoBase.h`) -/

/-- Modelled from the spec: the session states of the absent header, in the
order the spec lists them (`Disconnected < ProtocolNegotiated < LoggedIn <
ConnectedToShare`). -/
inductive SessionStatus where
  | kTangoSessionStatusDisconnected
  | kTangoSessionStatusProtocolNegotiated
  | kTangoSessionStatusLoggedIn
  | kTangoSessionStatusConnectedToShare
  deriving DecidableEq, Repr

/-- The integer value of a session state, used by the `>=` and `<=` tests. -/
def SessionStatus.rank : SessionStatus → Nat
  | .kTangoSessionStatusDisconnected => 0
  | .kTangoSessionStatusProtocolNegotiated => 1
  | .kTangoSessionStatusLoggedIn => 2
  | .kTangoSessionStatusConnectedToShare => 3

/-- Modelled from the spec: the error kinds of the absent header. -/
inductive TangoError where
  | kTangoErrorNone
  | kTangoErrorParameterInvalid
  | kTangoErrorGeneralSystemError
  | kTangoErrorConnectionProblem
  | kTangoErrorProtocolError
  | kTangoErrorAccessDenied
  | kTangoErrorNotFound
  deriving DecidableEq, Repr

/-- The `struct sockaddr_in` fields that `tango_create` fills. -/
structure SockAddr where
  sin_family : Nat
  sin_port : Nat
  sin_addr : Nat
  deriving DecidableEq, Repr

/-- The connection record `tango_connection_t`.  The three `char` arrays carry
their size as their length. -/
structure Connection where
  socket : Int
  sock_addr : SockAddr
  share : List Nat
  user_name : List Nat
  user_password : List Nat
  pid : Nat
  mid : Nat
  uid : Nat
  tid : Nat
  session_flags : Nat
  session_status : SessionStatus
  error : TangoError
  error_message : List Nat
  deriving DecidableEq, Repr

/-- The record `tango_file_info_t`; `filename` and `path` are `char` arrays. -/
structure FileInfo where
  filename : List Nat
  path : List Nat
  is_folder : Int
  file_size : Nat
  fid : Nat
  deriving DecidableEq, Repr

/-- The open modes passed to `_tango_NT_Create`. -/
inductive OpenMode where
  | kTangoOpenFileForRead
  | kTangoOpenFileForWrite
  deriving DecidableEq, Repr

/-- The create dispositions passed to `_tango_NT_Create`. -/
inductive Disposition where
  | FILE_OPEN
  | FILE_OVERWRITE_IF
  deriving DecidableEq, Repr

/-- The sizes of the `char` arrays of `tango_connection_t`, declared in the
absent header. -/
structure Sizes where
  share : Nat
  user_name : Nat
  user_password : Nat
  deriving DecidableEq, Repr

/-! ## The calls the API issues -/

/-- One call to the transport or to an SMB command, with the arguments the
API passed. -/
inductive Call where
  | connect
  | close
  | NEGOTIATE_PROTOCOL
  | SESSION_SETUP
  | TREE_CONNECT
  | TREE_DISCONNECT
  | LOGOFF
  | ECHO (count : Nat) (fill : Nat)
  | NT_Create (file : FileInfo) (mode : OpenMode) (disposition : Disposition)
  | READ (offset : Nat) (bytes : Nat)
  | WRITE (bytes : Nat) (offset : Nat)
  | Close
  | TRANS2_FIND_FIRST2 (pattern : List Nat) (arr : List FileInfo) (size : Nat)
  deriving DecidableEq, Repr

/-- The collaborators of `Tango.c`: the transport and the SMB commands of the
other translation units.  Each is an arbitrary function of the state it is
handed, returning its `int` result and the state it leaves. -/
structure Env where
  connect : Connection → Int
  NEGOTIATE_PROTOCOL : Connection → Int × Connection
  SESSION_SETUP : Connection → Int × Connection
  TREE_CONNECT : Connection → Int × Connection
  TREE_DISCONNECT : Connection → Int × Connection
  LOGOFF : Connection → Int × Connection
  ECHO : Connection → Nat → Nat → Int × Connection
  NT_Create : Connection → FileInfo → OpenMode → Disposition → Int × Connection × FileInfo
  READ : Connection → Nat → Nat → FileInfo → List Nat → Int × Connection × FileInfo × List Nat
  WRITE : Connection → FileInfo → List Nat → Nat → Nat → Int × Connection × FileInfo
  Close : Connection → FileInfo → Int × Connection × FileInfo
  TRANS2_FIND_FIRST2 : Connection → List Nat → List FileInfo → Nat → Int × Connection × List FileInfo

/-- Modelled from the spec: `_tango_set_error` of the absent `TangoBase`
records the kind and the message of the failure in the connection. -/
def _tango_set_error (c : Connection) (kind : TangoError) (msg : List Nat) : Connection :=
  { c with error := kind, error_message := msg }

/-- The bytes of a string literal of the source. -/
def bytes (s : String) : List Nat :=
  s.toList.map Char.toNat

/-! ## Session handling -/

/-- The collaborators of `tango_create`: the allocator, `socket()` and the
resolver calls used by `address_for_host`. -/
structure Sys where
  malloc_ok : Bool
  socket : Int
  inet_addr : List Nat → Nat
  gethostbyname : List Nat → Option Nat

/-- The constant `INADDR_NONE`. -/
def INADDR_NONE : Nat := 0xFFFFFFFF

/-- The constant `AF_INET`. -/
def AF_INET : Nat := 2

/-- C `htons` on a little-endian host: the two bytes of a 16-bit value swapped. -/
def htons (x : Nat) : Nat :=
  (x % 256) * 256 + (x / 256) % 256

/-- The static `address_for_host`: `inet_addr` first, the resolver when that
gives `INADDR_NONE`, and `INADDR_NONE` when the resolver has no entry. -/
def address_for_host (sys : Sys) (hn : List Nat) : Nat :=
  if INADDR_NONE = sys.inet_addr hn then
    match sys.gethostbyname hn with
    | none => INADDR_NONE
    | some a => a
  else sys.inet_addr hn

/-- How a call of `tango_create` ends: `ok` with the connection returned, `null`
for `return NULL`, `abort` for a failed `assert`, `undefined` where C leaves the
behaviour undefined (a NULL pointer used, a store outside an array). -/
inductive Outcome (α : Type) where
  | ok (a : α)
  | null
  | abort
  | undefined
  deriving DecidableEq, Repr

/-- The connection after `memset(tango_connection_ptr, 0, sizeof ...)`: every
field zero, which for the two enumerations is their first value. -/
def zeroConnection (sz : Sizes) : Connection :=
  { socket := 0
    sock_addr := { sin_family := 0, sin_port := 0, sin_addr := 0 }
    share := List.replicate sz.share 0
    user_name := List.replicate sz.user_name 0
    user_password := List.replicate sz.user_password 0
    pid := 0
    mid := 0
    uid := 0
    tid := 0
    session_flags := 0
    session_status := .kTangoSessionStatusDisconnected
    error := .kTangoErrorNone
    error_message := [] }

/-- The part of `tango_create` that stores the share string (lines 109-121),
on the string `s` of the `share` argument and the index `first` of the
backslash that ends the host. -/
def storeShare (buf : List Nat) (s : List Nat) (first : Nat) : Option (List Nat) :=
  match strchr s (first + 1) BACKSLASH with
  | some slash_idx =>
    -- Format: \\hostname\share\subfolder
    -- strncpy(share, share_arg, slash_idx); share[slash_idx + 1] = 0
    match strncpy buf s slash_idx with
    | none => none
    | some b => writeAt b (slash_idx + 1) [NUL]
  | none =>
    -- Format: \\hostname\share
    -- strcpy(share, strchr(share_arg + 2, 92) + 1)
    strcpy buf 0 (s.drop (first + 1))

/-- The function `tango_create`.  `next_mid` is the value of the static counter
before the call; the result carries the connection and the counter after it.
The three arguments are the arrays the `const char *` parameters point to; an
argument that is not NUL-terminated gives `undefined`.  On the three `bailout`
paths the function returns NULL (the error it records first goes into memory
that is then freed).  After a failed `malloc` the NULL pointer is handed to
`_tango_set_error` (line 64), which stores into the connection: `undefined`. -/
def tango_create (sz : Sizes) (sys : Sys) (next_mid : Nat)
    (share username password : List Nat) : Outcome (Connection × Nat) :=
  -- malloc; on failure _tango_set_error(NULL, ...) comes before `return NULL`
  if !sys.malloc_ok then .undefined else
  -- memset
  let c0 := zeroConnection sz
  -- socket()
  if sys.socket < 0 then .null else
  let c1 := { c0 with socket := sys.socket }
  match cstr share 0 with
  | none => .undefined
  | some s =>
  -- strncmp(share, "\\\\", 2) != 0 || strlen(share) < 3
  if s.take 2 ≠ [BACKSLASH, BACKSLASH] ∨ s.length < 3 then .null else
  -- begin_ptr = share + 2, end_ptr = strchr(begin_ptr, '\\')
  let end_ptr := strchr s 2 BACKSLASH
  -- assert(strlen(begin_ptr) < 64)
  if ¬ (s.length - 2 < 64) then .abort else
  match end_ptr with
  | none => .undefined
  | some first =>
  -- strncpy(hostname, begin_ptr, end_ptr - begin_ptr) and its terminator
  let hostname := (s.drop 2).take (first - 2)
  let addr := address_for_host sys hostname
  if addr = INADDR_NONE then .null else
  match storeShare c1.share s first with
  | none => .undefined
  | some sh =>
  let c2 := { c1 with
    share := sh
    sock_addr := { sin_family := AF_INET, sin_port := htons 445, sin_addr := addr }
    pid := 0x1234
    mid := next_mid }
  match cstr username 0, cstr password 0 with
  | some u, some p =>
    match strcpy c2.user_name 0 u, strcpy c2.user_password 0 p with
    | some un, some up =>
      .ok ({ c2 with user_name := un, user_password := up }, (next_mid + 1) % 65536)
    | _, _ => .undefined
  | _, _ => .undefined

/-- The function `tango_connect`: result, connection afterwards, calls issued. -/
def tango_connect (env : Env) (c : Connection) : Int × Connection × List Call :=
  let result := env.connect c
  if result < 0 then
    (-1, _tango_set_error c .kTangoErrorConnectionProblem (bytes "Failed to connect"),
      [Call.connect])
  else
    let r1 := env.NEGOTIATE_PROTOCOL c
    if r1.1 < 0 then (0, r1.2, [Call.connect, Call.NEGOTIATE_PROTOCOL]) else
    let r2 := env.SESSION_SETUP r1.2
    if r2.1 < 0 then (0, r2.2, [Call.connect, Call.NEGOTIATE_PROTOCOL, Call.SESSION_SETUP]) else
    let r3 := env.TREE_CONNECT r2.2
    if r3.1 < 0 then
      (0, r3.2, [Call.connect, Call.NEGOTIATE_PROTOCOL, Call.SESSION_SETUP, Call.TREE_CONNECT])
    else
      (1, r3.2, [Call.connect, Call.NEGOTIATE_PROTOCOL, Call.SESSION_SETUP, Call.TREE_CONNECT])

/-- The first `if` of `tango_close`: tree disconnect when connected to a share. -/
def closeTree (env : Env) (c : Connection) : Connection × List Call :=
  if c.session_status.rank ≥ SessionStatus.kTangoSessionStatusConnectedToShare.rank then
    ({ (env.TREE_DISCONNECT c).2 with
        session_status := .kTangoSessionStatusLoggedIn, tid := 0 }, [Call.TREE_DISCONNECT])
  else (c, [])

/-- The second `if` of `tango_close`: logoff when logged in. -/
def closeSession (env : Env) (c : Connection) : Connection × List Call :=
  if c.session_status.rank ≥ SessionStatus.kTangoSessionStatusLoggedIn.rank then
    ({ (env.LOGOFF c).2 with
        session_status := .kTangoSessionStatusDisconnected, uid := 0, session_flags := 0 },
      [Call.LOGOFF])
  else (c, [])

/-- The function `tango_close`: connection afterwards and calls issued. -/
def tango_close (env : Env) (c : Connection) : Connection × List Call :=
  let a := closeTree env c
  let b := closeSession env a.1
  ({ b.1 with socket := 0 }, a.2 ++ b.2 ++ [Call.close])

/-- The function `tango_test_connection`; the filler byte `'F'` is 70. -/
def tango_test_connection (env : Env) (c : Connection) : Int × Connection × List Call :=
  if c.session_status.rank ≤ SessionStatus.kTangoSessionStatusProtocolNegotiated.rank then
    (-1, _tango_set_error c .kTangoErrorGeneralSystemError (bytes "Not connected yet."), [])
  else
    let r := env.ECHO c 2 70
    (r.1, r.2, [Call.ECHO 2 70])

/-! ## File infos and file operations -/

/-- The function `tango_create_root_file_info`. -/
def tango_create_root_file_info (_c : Connection) (root : FileInfo) : Option FileInfo :=
  let r1 := { root with file_size := 0, is_folder := 1 }
  match strcpy r1.filename 0 [], strcpy r1.path 0 [] with
  | some fn, some p => some { r1 with filename := fn, path := p }
  | _, _ => none

/-- The function `tango_create_file_info`: the parent and the output record
after the call.  `file_name` is the array the `const char *` points to. -/
def tango_create_file_info (_c : Connection) (parent out : FileInfo)
    (file_name : List Nat) (is_folder : Int) : Option (FileInfo × FileInfo) := do
  let parent1 := { parent with file_size := 0, is_folder := is_folder }
  let name ← cstr file_name 0
  let fn ← strcpy out.filename 0 name
  let pp ← cstr parent1.path 0
  let path1 ← strcpy out.path 0 pp
  let l1 ← strlen path1 0
  let path2 ← writeAt path1 l1 [BACKSLASH]
  let l2 ← strlen path2 0
  let pf ← cstr parent1.filename 0
  let path3 ← strcpy path2 (l2 + 1) pf
  some (parent1, { out with filename := fn, path := path3 })

/-- The function `tango_list_directory`.  `search_pattern` is the content of
the local 256-byte array on entry (not initialised by the function). -/
def tango_list_directory (env : Env) (search_pattern : List Nat) (c : Connection)
    (directory : FileInfo) (file_info_arr : List FileInfo) (file_info_arr_size : Nat) :
    Option (Int × Connection × List FileInfo × List Call) := do
  let p ← cstr directory.path 0
  let sp1 ← strcpy search_pattern 0 p
  let l1 ← strlen sp1 0
  let f ← cstr directory.filename 0
  let sp2 ← strcpy sp1 l1 f
  let l2 ← strlen sp2 0
  let sp3 ← strcpy sp2 l2 [BACKSLASH, STAR]
  let pat ← cstr sp3 0
  let r := env.TRANS2_FIND_FIRST2 c pat file_info_arr file_info_arr_size
  some (r.1, r.2.1, r.2.2, [Call.TRANS2_FIND_FIRST2 pat file_info_arr file_info_arr_size])

/-- The function `tango_read_file`: result, connection, file info and buffer
afterwards, calls issued. -/
def tango_read_file (env : Env) (c : Connection) (file_info : FileInfo)
    (offset bytes : Nat) (buffer : List Nat) :
    Int × Connection × FileInfo × List Nat × List Call :=
  let o := env.NT_Create c file_info .kTangoOpenFileForRead .FILE_OPEN
  if o.1 = -1 then
    (o.1, o.2.1, o.2.2, buffer,
      [Call.NT_Create file_info .kTangoOpenFileForRead .FILE_OPEN])
  else
    let rd := env.READ o.2.1 offset bytes o.2.2 buffer
    let cl := env.Close rd.2.1 rd.2.2.1
    (rd.1, cl.2.1, cl.2.2, rd.2.2.2,
      [Call.NT_Create file_info .kTangoOpenFileForRead .FILE_OPEN,
        Call.READ offset bytes, Call.Close])

/-- The function `tango_write_file`: result, connection and file info
afterwards, calls issued. -/
def tango_write_file (env : Env) (c : Connection) (file_info : FileInfo)
    (offset bytes : Nat) (buffer : List Nat) :
    Int × Connection × FileInfo × List Call :=
  let o := env.NT_Create c file_info .kTangoOpenFileForWrite .FILE_OVERWRITE_IF
  if o.1 = -1 then
    (o.1, o.2.1, o.2.2,
      [Call.NT_Create file_info .kTangoOpenFileForWrite .FILE_OVERWRITE_IF])
  else
    let wr := env.WRITE o.2.1 o.2.2 buffer bytes offset
    let cl := env.Close wr.2.1 wr.2.2
    (wr.1, cl.2.1, cl.2.2,
      [Call.NT_Create file_info .kTangoOpenFileForWrite .FILE_OVERWRITE_IF,
        Call.WRITE bytes offset, Call.Close])

/-! ## Error handling -/

/-- The function `tango_error`: the kind returned and the connection afterwards. -/
def tango_error (c : Connection) : TangoError × Connection :=
  let error := c.error
  (error, { c with error := .kTangoErrorNone })

/-- The function `tango_error_message`. -/
def tango_error_message (c : Connection) : List Nat :=
  c.error_message

/-! ## Named outcomes and sample collaborators -/

/-- What `_tango_NEGOTIATE_PROTOCOL` returns when `tango_connect` runs it. -/
def negotiateResult (env : Env) (c : Connection) : Int :=
  (env.NEGOTIATE_PROTOCOL c).1

/-- What `_tango_SESSION_SETUP` returns on the connection NEGOTIATE left. -/
def sessionResult (env : Env) (c : Connection) : Int :=
  (env.SESSION_SETUP (env.NEGOTIATE_PROTOCOL c).2).1

/-- What `_tango_TREE_CONNECT` returns on the connection SESSION_SETUP left. -/
def treeResult (env : Env) (c : Connection) : Int :=
  (env.TREE_CONNECT (env.SESSION_SETUP (env.NEGOTIATE_PROTOCOL c).2).2).1

/-- The data-model invariant relating `uid` and `tid` to the session state. -/
def Invariant (c : Connection) : Prop :=
  (c.uid ≠ 0 ↔
      c.session_status.rank ≥ SessionStatus.kTangoSessionStatusLoggedIn.rank) ∧
    (c.tid ≠ 0 ↔ c.session_status = SessionStatus.kTangoSessionStatusConnectedToShare)

instance instDecidableInvariant (c : Connection) : Decidable (Invariant c) := by
  unfold Invariant
  infer_instance

/-- A server on which every command succeeds with result `r` and changes
nothing in the state it is handed. -/
def constEnv (r : Int) : Env :=
  { connect := fun _ => 0
    NEGOTIATE_PROTOCOL := fun c => (r, c)
    SESSION_SETUP := fun c => (r, c)
    TREE_CONNECT := fun c => (r, c)
    TREE_DISCONNECT := fun c => (r, c)
    LOGOFF := fun c => (r, c)
    ECHO := fun c _ _ => (r, c)
    NT_Create := fun c f _ _ => (r, c, f)
    READ := fun c _ _ f b => (r, c, f, b)
    WRITE := fun c f _ _ _ => (r, c, f)
    Close := fun c f => (r, c, f)
    TRANS2_FIND_FIRST2 := fun c _ arr _ => (r, c, arr) }

/-- A server on which NEGOTIATE succeeds and moves the connection to
ProtocolNegotiated, and every later command fails with -1 and changes nothing. -/
def failingSetupEnv : Env :=
  { constEnv (-1) with
    NEGOTIATE_PROTOCOL := fun c =>
      (0, { c with session_status := SessionStatus.kTangoSessionStatusProtocolNegotiated }) }

/-- A connection in state `st` with the given `uid`, `tid` and flags, and
64-byte arrays. -/
def sampleConnection (st : SessionStatus) (uid tid flags : Nat) : Connection :=
  { zeroConnection { share := 64, user_name := 64, user_password := 64 } with
    socket := 3, session_status := st, uid := uid, tid := tid, session_flags := flags }

/-- The UNC string `\\host\rest`, without its terminator. -/
def unc (host rest : List Nat) : List Nat :=
  [BACKSLASH, BACKSLASH] ++ host ++ BACKSLASH :: rest

/-- The share string of the connection `tango_create` returned, read as a C
string; `none` when no connection was returned. -/
def storedShare (o : Outcome (Connection × Nat)) : Option (List Nat) :=
  match o with
  | .ok r => cstr r.1.share 0
  | _ => none

/-- An allocator and a `socket()` that succeed, and a resolver that knows the
one host `h` (byte 104) and no other. -/
def sampleSys : Sys :=
  { malloc_ok := true
    socket := 3
    inet_addr := fun _ => INADDR_NONE
    gethostbyname := fun hn => if hn = [104] then some 0x0100007F else none }

/-- Arrays of 64 bytes for the share, the user name and the password. -/
def sampleSizes : Sizes :=
  { share := 64, user_name := 64, user_password := 64 }

/-- A zero-initialised `tango_file_info_t` with 16-byte arrays. -/
def zeroFileInfo : FileInfo :=
  { filename := List.replicate 16 0, path := List.replicate 16 0,
    is_folder := 0, file_size := 0, fid := 0 }

/-- A parent file info with path `\d` and filename `f` in 16-byte arrays. -/
def sampleParent : FileInfo :=
  { filename := [102] ++ List.replicate 15 0, path := [92, 100] ++ List.replicate 14 0,
    is_folder := 1, file_size := 5, fid := 0 }

/-! # Theorems -/

/-! ## C strings -/

/-- Reading up to the first NUL of `a ++ NUL :: rest` gives `a` when `a` has no NUL. -/
theorem takeWhile_append_nul (a rest : List Nat) (h : NUL ∉ a) :
    (a ++ NUL :: rest).takeWhile (fun b => b != NUL) = a := by
  induction a with
  | nil => simp [NUL]
  | cons x xs ih =>
    have hx : x ≠ NUL := fun e => h (by simp [e])
    have hxs : NUL ∉ xs := fun e => h (by simp [e])
    simp [List.takeWhile_cons, hx, ih hxs]

/-- The C string at the start of `a ++ NUL :: rest` is `a` when `a` has no NUL. -/
theorem cstr_append_nul (a rest : List Nat) (h : NUL ∉ a) :
    cstr (a ++ NUL :: rest) 0 = some a := by
  simp [cstr, takeWhile_append_nul a rest h]

/-- A string read by `cstr` contains no NUL. -/
theorem cstr_nonul (m : List Nat) (off : Nat) (s : List Nat) (h : cstr m off = some s) :
    NUL ∉ s := by
  unfold cstr at h
  split at h
  · simp only [Option.some.injEq] at h
    subst h
    intro hmem
    have := List.mem_takeWhile_imp hmem
    simp at this
  · simp at h

/-- Copying `s` to the end of the part `a` of an array with room for it. -/
theorem strcpy_append (a rest s : List Nat) (h : s.length + 1 ≤ rest.length) :
    strcpy (a ++ rest) a.length s = some (a ++ s ++ NUL :: rest.drop (s.length + 1)) := by
  unfold strcpy writeAt
  have h1 : a.length + (s ++ [NUL]).length ≤ (a ++ rest).length := by
    simp; omega
  rw [if_pos h1]
  simp [List.drop_append, List.take_append]

/-- The length of the C string at the start of `a ++ NUL :: rest`. -/
theorem strlen_append_nul (a rest : List Nat) (h : NUL ∉ a) :
    strlen (a ++ NUL :: rest) 0 = some a.length := by
  simp [strlen, cstr_append_nul a rest h]

/-- The first `c` of `a ++ c :: rest` is at index `a.length` when `a` has none. -/
theorem indexOf_append_cons (a rest : List Nat) (c : Nat) (h : c ∉ a) :
    (a ++ c :: rest).indexOf c = a.length := by
  induction a with
  | nil => simp
  | cons x xs ih =>
    have hx : x ≠ c := fun e => h (by simp [e])
    have hxs : c ∉ xs := fun e => h (by simp [e])
    simp [List.indexOf_cons, hx, ih hxs]

/-- The call `strchr` finds the first `c` after a part `a` without `c`. -/
theorem strchr_found (pre a rest : List Nat) (c : Nat) (h : c ∉ a) :
    strchr (pre ++ (a ++ c :: rest)) pre.length c = some (pre.length + a.length) := by
  simp [strchr, indexOf_append_cons a rest c h]

/-- The call `strchr` returns NULL when the rest of the string has no `c`. -/
theorem strchr_none (pre a : List Nat) (c : Nat) (h : c ∉ a) :
    strchr (pre ++ a) pre.length c = none := by
  simp [strchr, h]

/-- The else-branch of the share parser: for `\\host\share` the array starts
with `share` and its terminator. -/
theorem storeShare_plain (n : Nat) (host sh : List Nat)
    (hsh : BACKSLASH ∉ sh) (hfit : sh.length < n) :
    storeShare (List.replicate n 0) (unc host sh) (2 + host.length) =
      some (sh ++ NUL :: (List.replicate n 0).drop (sh.length + 1)) := by
  have hs : unc host sh = ([BACKSLASH, BACKSLASH] ++ host ++ [BACKSLASH]) ++ sh := by
    simp [unc]
  have hl : 2 + host.length + 1 = ([BACKSLASH, BACKSLASH] ++ host ++ [BACKSLASH]).length := by
    simp; omega
  have h1 : strchr (unc host sh) (2 + host.length + 1) BACKSLASH = none := by
    rw [hs, hl]
    exact strchr_none _ _ _ hsh
  have h2 : (unc host sh).drop (2 + host.length + 1) = sh := by
    rw [hs, hl]
    simp
  have h3 := strcpy_append [] (List.replicate n 0) sh (by simp; omega)
  simp only [List.nil_append, List.length_nil] at h3
  simp only [storeShare, h1, h2, h3]

/-- Storing a NUL one byte past an existing NUL leaves the string before it. -/
theorem writeAt_after_nul (a r : List Nat) (h : 1 ≤ r.length) :
    writeAt (a ++ NUL :: r) (a.length + 1) [NUL] = some (a ++ NUL :: NUL :: r.drop 1) := by
  unfold writeAt
  have h1 : a.length + 1 + [NUL].length ≤ (a ++ NUL :: r).length := by
    simp; omega
  rw [if_pos h1]
  have e1 : (a ++ NUL :: r).take (a.length + 1) = a ++ [NUL] := by
    rw [List.take_append]
    simp
  have e2 : (a ++ NUL :: r).drop (a.length + 1 + [NUL].length) = r.drop 1 := by
    have : a.length + 1 + [NUL].length = a.length + 2 := rfl
    rw [this, List.drop_append]
    simp
  rw [e1, e2]
  simp

/-- Overwriting the terminator of `a` with the byte `b`. -/
theorem writeAt_over_nul (a r : List Nat) (b : Nat) :
    writeAt (a ++ NUL :: r) a.length [b] = some (a ++ b :: r) := by
  unfold writeAt
  have h1 : a.length + [b].length ≤ (a ++ NUL :: r).length := by
    simp
  rw [if_pos h1]
  have e2 : (a ++ NUL :: r).drop (a.length + [b].length) = r := by
    have : a.length + [b].length = a.length + 1 := rfl
    rw [this, List.drop_append]
    simp
  rw [e2]
  simp

/-- The call `strncpy` with a count no longer than the source copies that many
bytes and no terminator. -/
theorem strncpy_prefix (n : Nat) (a rest : List Nat) (h : a.length ≤ n) :
    strncpy (List.replicate n 0) (a ++ rest) a.length =
      some (a ++ List.replicate (n - a.length) 0) := by
  unfold strncpy writeAt
  have h0 : ((a ++ rest ++ List.replicate a.length NUL).take a.length) = a := by
    simp [List.take_append]
  rw [h0]
  simp [h]

/-- The if-branch of the share parser: for `\\host\share\sub` the stored C
string is the UNC up to its second separator. -/
theorem storeShare_subpath (n : Nat) (host sh sub : List Nat)
    (hsh : BACKSLASH ∉ sh) (hh0 : NUL ∉ host) (hs0 : NUL ∉ sh)
    (hfit : host.length + sh.length + 5 ≤ n) :
    (storeShare (List.replicate n 0) (unc host (sh ++ BACKSLASH :: sub))
        (2 + host.length)).bind (fun b => cstr b 0) =
      some ([BACKSLASH, BACKSLASH] ++ host ++ BACKSLASH :: sh) := by
  have hs : unc host (sh ++ BACKSLASH :: sub) =
      ([BACKSLASH, BACKSLASH] ++ host ++ [BACKSLASH]) ++ (sh ++ BACKSLASH :: sub) := by
    simp [unc]
  have hs2 : unc host (sh ++ BACKSLASH :: sub) =
      ([BACKSLASH, BACKSLASH] ++ host ++ BACKSLASH :: sh) ++ (BACKSLASH :: sub) := by
    simp [unc]
  have hl : 2 + host.length + 1 = ([BACKSLASH, BACKSLASH] ++ host ++ [BACKSLASH]).length := by
    simp; omega
  have hl2 : ([BACKSLASH, BACKSLASH] ++ host ++ [BACKSLASH]).length + sh.length =
      ([BACKSLASH, BACKSLASH] ++ host ++ BACKSLASH :: sh).length := by
    simp; omega
  have hlen : ([BACKSLASH, BACKSLASH] ++ host ++ BACKSLASH :: sh).length =
      host.length + sh.length + 3 := by
    simp; omega
  have h1 : strchr (unc host (sh ++ BACKSLASH :: sub)) (2 + host.length + 1) BACKSLASH =
      some (([BACKSLASH, BACKSLASH] ++ host ++ BACKSLASH :: sh).length) := by
    rw [hs, hl, ← hl2]
    exact strchr_found _ _ _ _ hsh
  have h2 := strncpy_prefix n ([BACKSLASH, BACKSLASH] ++ host ++ BACKSLASH :: sh)
    (BACKSLASH :: sub) (by omega)
  rw [← hs2] at h2
  obtain ⟨k, hk⟩ : ∃ k, n - ([BACKSLASH, BACKSLASH] ++ host ++ BACKSLASH :: sh).length = k + 2 :=
    ⟨n - ([BACKSLASH, BACKSLASH] ++ host ++ BACKSLASH :: sh).length - 2, by omega⟩
  have h3 := writeAt_after_nul ([BACKSLASH, BACKSLASH] ++ host ++ BACKSLASH :: sh)
    (List.replicate (k + 1) 0) (by simp)
  have hnul : NUL ∉ [BACKSLASH, BACKSLASH] ++ host ++ BACKSLASH :: sh := by
    intro hm
    simp only [List.mem_append, List.mem_cons, List.mem_singleton, List.not_mem_nil,
      or_false] at hm
    rcases hm with ((h | h) | h) | h | h
    · simp [NUL, BACKSLASH] at h
    · simp [NUL, BACKSLASH] at h
    · exact hh0 h
    · simp [NUL, BACKSLASH] at h
    · exact hs0 h
  have hrep : List.replicate (k + 2) 0 = NUL :: List.replicate (k + 1) 0 := by
    simp [List.replicate_succ, NUL]
  simp only [storeShare, h1, h2, hk, hrep, h3, Option.bind_eq_bind, Option.some_bind,
    cstr_append_nul _ _ hnul]

/-- A UNC string built from NUL-free parts has no NUL. -/
theorem unc_nonul (host rest : List Nat) (hh0 : NUL ∉ host) (hr0 : NUL ∉ rest) :
    NUL ∉ unc host rest := by
  intro hm
  simp only [unc, List.mem_append, List.mem_cons, List.mem_singleton, List.not_mem_nil,
    or_false] at hm
  rcases hm with ((h | h) | h) | h | h
  · simp [NUL, BACKSLASH] at h
  · simp [NUL, BACKSLASH] at h
  · exact hh0 h
  · simp [NUL, BACKSLASH] at h
  · exact hr0 h

/-- For a well-formed UNC whose host resolves, `tango_create` returns a
connection whose share string is what `storeShare` put in the zeroed array. -/
theorem tango_create_stored (sz : Sizes) (sys : Sys) (next_mid : Nat)
    (host rest username password u p : List Nat)
    (hm : sys.malloc_ok = true) (hsock : 0 ≤ sys.socket)
    (hh0 : NUL ∉ host) (hhb : BACKSLASH ∉ host) (hr0 : NUL ∉ rest)
    (hassert : host.length + 1 + rest.length < 64)
    (hres : address_for_host sys host ≠ INADDR_NONE)
    (hu : cstr username 0 = some u) (hp : cstr password 0 = some p)
    (hul : u.length < sz.user_name) (hpl : p.length < sz.user_password) :
    storedShare (tango_create sz sys next_mid (unc host rest ++ [NUL]) username password) =
      (storeShare (List.replicate sz.share 0) (unc host rest) (2 + host.length)).bind
        (fun b => cstr b 0) := by
  have h1 : cstr (unc host rest ++ [NUL]) 0 = some (unc host rest) :=
    cstr_append_nul (unc host rest) [] (unc_nonul host rest hh0 hr0)
  have h2 : (unc host rest).take 2 = [BACKSLASH, BACKSLASH] := by simp [unc]
  have h3 : (unc host rest).length = host.length + rest.length + 3 := by
    simp [unc]; omega
  have h4 : strchr (unc host rest) 2 BACKSLASH = some (2 + host.length) :=
    strchr_found [BACKSLASH, BACKSLASH] host rest BACKSLASH hhb
  have h5 : ((unc host rest).drop 2).take (2 + host.length - 2) = host := by
    simp [unc]
  have h6 : ¬ sys.socket < 0 := by omega
  have h7 : ¬ ((unc host rest).take 2 ≠ [BACKSLASH, BACKSLASH] ∨ (unc host rest).length < 3) := by
    rw [h2, h3]
    simp
  have h8 : (unc host rest).length - 2 < 64 := by omega
  have h9 := strcpy_append [] (List.replicate sz.user_name 0) u (by simp; omega)
  have h10 := strcpy_append [] (List.replicate sz.user_password 0) p (by simp; omega)
  simp only [List.nil_append, List.length_nil] at h9 h10
  unfold tango_create
  simp only [hm, Bool.not_true, Bool.false_eq_true, if_false, h6, h1, h7, h4, h8, not_true,
    h5, hres, zeroConnection, hu, hp, h9, h10]
  cases hst : storeShare (List.replicate sz.share 0) (unc host rest) (2 + host.length) with
  | none => simp [storedShare]
  | some sh => simp [storedShare]

/-- The pattern built by `tango_list_directory` and the call it makes. -/
theorem tango_list_directory_eq (env : Env) (sp : List Nat) (c : Connection)
    (dir : FileInfo) (arr : List FileInfo) (size : Nat) (p f : List Nat)
    (hsp : sp.length = 256) (hp : cstr dir.path 0 = some p)
    (hf : cstr dir.filename 0 = some f) (hlen : p.length + f.length < 254) :
    tango_list_directory env sp c dir arr size =
      some ((env.TRANS2_FIND_FIRST2 c (p ++ f ++ [BACKSLASH, STAR]) arr size).1,
        (env.TRANS2_FIND_FIRST2 c (p ++ f ++ [BACKSLASH, STAR]) arr size).2.1,
        (env.TRANS2_FIND_FIRST2 c (p ++ f ++ [BACKSLASH, STAR]) arr size).2.2,
        [Call.TRANS2_FIND_FIRST2 (p ++ f ++ [BACKSLASH, STAR]) arr size]) := by
  have hp0 : NUL ∉ p := cstr_nonul _ _ _ hp
  have hf0 : NUL ∉ f := cstr_nonul _ _ _ hf
  have hpf0 : NUL ∉ p ++ f := by simp [hp0, hf0]
  have hpat0 : NUL ∉ p ++ f ++ [BACKSLASH, STAR] := by
    intro hm
    simp only [List.mem_append, List.mem_cons, List.mem_singleton, List.not_mem_nil,
      or_false] at hm
    rcases hm with (h | h) | h | h
    · exact hp0 h
    · exact hf0 h
    · simp [NUL, BACKSLASH] at h
    · simp [NUL, STAR] at h
  have e1 : strcpy sp 0 p = some (p ++ NUL :: sp.drop (p.length + 1)) := by
    have := strcpy_append [] sp p (by omega)
    simpa using this
  have e2 : strcpy (p ++ NUL :: sp.drop (p.length + 1)) p.length f =
      some (p ++ f ++ NUL :: (NUL :: sp.drop (p.length + 1)).drop (f.length + 1)) :=
    strcpy_append p (NUL :: sp.drop (p.length + 1)) f (by simp; omega)
  have e3 : strcpy (p ++ f ++ NUL :: (NUL :: sp.drop (p.length + 1)).drop (f.length + 1))
      (p.length + f.length) [BACKSLASH, STAR] =
      some (p ++ f ++ [BACKSLASH, STAR] ++ NUL ::
        (NUL :: (NUL :: sp.drop (p.length + 1)).drop (f.length + 1)).drop 3) := by
    have := strcpy_append (p ++ f) (NUL :: (NUL :: sp.drop (p.length + 1)).drop (f.length + 1))
      [BACKSLASH, STAR] (by simp; omega)
    simpa using this
  simp only [tango_list_directory, hp, hf, e1, Option.bind_eq_bind, Option.some_bind,
    strlen_append_nul p _ hp0, e2, strlen_append_nul (p ++ f) _ hpf0, List.length_append, e3,
    cstr_append_nul _ _ hpat0]


/-! ## C1: `tango_connect` -/

/-- C1: `tango_connect` returns -1 exactly when the transport connect fails, and
then it issues no SMB command and records `kTangoErrorConnectionProblem`; it
returns 0 exactly when the transport connects and one of NEGOTIATE,
SESSION_SETUP, TREE_CONNECT (run in that order, each on the state the previous
one left) returns a negative result, and no command follows the first failing
one; it returns 1 exactly when all three return a non-negative result. -/
theorem tango_connect_result (env : Env) (c : Connection) :
    ((tango_connect env c).1 = -1 ↔ env.connect c < 0) ∧
    (env.connect c < 0 →
      (tango_connect env c).2.2 = [Call.connect] ∧
      (tango_connect env c).2.1.error = TangoError.kTangoErrorConnectionProblem ∧
      (tango_connect env c).2.1 =
        _tango_set_error c TangoError.kTangoErrorConnectionProblem (bytes "Failed to connect")) ∧
    ((tango_connect env c).1 = 0 ↔
      0 ≤ env.connect c ∧
        (negotiateResult env c < 0 ∨ sessionResult env c < 0 ∨ treeResult env c < 0)) ∧
    (0 ≤ env.connect c → negotiateResult env c < 0 →
      (tango_connect env c).2.2 = [Call.connect, Call.NEGOTIATE_PROTOCOL]) ∧
    (0 ≤ env.connect c → 0 ≤ negotiateResult env c → sessionResult env c < 0 →
      (tango_connect env c).2.2 =
        [Call.connect, Call.NEGOTIATE_PROTOCOL, Call.SESSION_SETUP]) ∧
    (0 ≤ env.connect c → 0 ≤ negotiateResult env c → 0 ≤ sessionResult env c →
      (tango_connect env c).2.2 =
        [Call.connect, Call.NEGOTIATE_PROTOCOL, Call.SESSION_SETUP, Call.TREE_CONNECT]) ∧
    ((tango_connect env c).1 = 1 ↔
      0 ≤ env.connect c ∧ 0 ≤ negotiateResult env c ∧ 0 ≤ sessionResult env c ∧
        0 ≤ treeResult env c) := by
  unfold tango_connect negotiateResult sessionResult treeResult _tango_set_error
  by_cases h0 : env.connect c < 0
  · simp [h0]
  · by_cases h1 : (env.NEGOTIATE_PROTOCOL c).1 < 0
    · simp [h0, h1]
      omega
    · by_cases h2 : (env.SESSION_SETUP (env.NEGOTIATE_PROTOCOL c).2).1 < 0
      · simp [h0, h1, h2]
        omega
      · by_cases h3 :
          (env.TREE_CONNECT (env.SESSION_SETUP (env.NEGOTIATE_PROTOCOL c).2).2).1 < 0
        · simp [h0, h1, h2, h3]
          omega
        · simp [h0, h1, h2, h3]
          omega

/-! ## C8: `tango_error` -/

/-- C8: `tango_error` returns the stored kind and leaves `kTangoErrorNone`
behind; a second call returns `kTangoErrorNone`; the connection after either
call is the original one with only `error` replaced. -/
theorem tango_error_get_and_clear (c : Connection) :
    (tango_error c).1 = c.error ∧
    (tango_error c).2 = { c with error := TangoError.kTangoErrorNone } ∧
    (tango_error (tango_error c).2).1 = TangoError.kTangoErrorNone ∧
    (tango_error (tango_error c).2).2 = { c with error := TangoError.kTangoErrorNone } := by
  simp [tango_error]

/-! ## C10: `tango_read_file` and `tango_write_file` -/

/-- C10: when NT_CREATE (open for read, `FILE_OPEN`) returns -1, `tango_read_file`
returns -1 and issues neither READ nor CLOSE; otherwise it issues one READ with
the caller's offset and length, then one CLOSE, and returns READ's result
whatever CLOSE returns.  `tango_write_file` does the same with open for write,
`FILE_OVERWRITE_IF` and one WRITE. -/
theorem tango_read_write_shape (env : Env) (c : Connection) (f : FileInfo)
    (offset bytes : Nat) (buffer : List Nat) :
    ((env.NT_Create c f OpenMode.kTangoOpenFileForRead Disposition.FILE_OPEN).1 = -1 →
      (tango_read_file env c f offset bytes buffer).1 = -1 ∧
      (tango_read_file env c f offset bytes buffer).2.2.2.2 =
        [Call.NT_Create f OpenMode.kTangoOpenFileForRead Disposition.FILE_OPEN]) ∧
    ((env.NT_Create c f OpenMode.kTangoOpenFileForRead Disposition.FILE_OPEN).1 ≠ -1 →
      (tango_read_file env c f offset bytes buffer).1 =
        (env.READ (env.NT_Create c f OpenMode.kTangoOpenFileForRead Disposition.FILE_OPEN).2.1
          offset bytes
          (env.NT_Create c f OpenMode.kTangoOpenFileForRead Disposition.FILE_OPEN).2.2
          buffer).1 ∧
      (tango_read_file env c f offset bytes buffer).2.2.2.2 =
        [Call.NT_Create f OpenMode.kTangoOpenFileForRead Disposition.FILE_OPEN,
          Call.READ offset bytes, Call.Close]) ∧
    ((env.NT_Create c f OpenMode.kTangoOpenFileForWrite Disposition.FILE_OVERWRITE_IF).1 = -1 →
      (tango_write_file env c f offset bytes buffer).1 = -1 ∧
      (tango_write_file env c f offset bytes buffer).2.2.2 =
        [Call.NT_Create f OpenMode.kTangoOpenFileForWrite Disposition.FILE_OVERWRITE_IF]) ∧
    ((env.NT_Create c f OpenMode.kTangoOpenFileForWrite Disposition.FILE_OVERWRITE_IF).1 ≠ -1 →
      (tango_write_file env c f offset bytes buffer).1 =
        (env.WRITE
          (env.NT_Create c f OpenMode.kTangoOpenFileForWrite Disposition.FILE_OVERWRITE_IF).2.1
          (env.NT_Create c f OpenMode.kTangoOpenFileForWrite Disposition.FILE_OVERWRITE_IF).2.2
          buffer bytes offset).1 ∧
      (tango_write_file env c f offset bytes buffer).2.2.2 =
        [Call.NT_Create f OpenMode.kTangoOpenFileForWrite Disposition.FILE_OVERWRITE_IF,
          Call.WRITE bytes offset, Call.Close]) := by
  refine ⟨?_, ?_, ?_, ?_⟩
  · intro h
    simp [tango_read_file, h]
  · intro h
    simp [tango_read_file, h]
  · intro h
    simp [tango_write_file, h]
  · intro h
    simp [tango_write_file, h]

/-! ## C7: `tango_test_connection` -/

/-- C7, as stated, fails in state ProtocolNegotiated: the state is at
ProtocolNegotiated, ECHO would return 0, yet `tango_test_connection` returns -1
and sends nothing. -/
theorem tango_test_connection_negotiated_no_echo :
    (sampleConnection SessionStatus.kTangoSessionStatusProtocolNegotiated 0 0 0).session_status.rank
        ≥ SessionStatus.kTangoSessionStatusProtocolNegotiated.rank ∧
    ((constEnv 0).ECHO
        (sampleConnection SessionStatus.kTangoSessionStatusProtocolNegotiated 0 0 0) 2 70).1 = 0 ∧
    (tango_test_connection (constEnv 0)
        (sampleConnection SessionStatus.kTangoSessionStatusProtocolNegotiated 0 0 0)).1 = -1 ∧
    (tango_test_connection (constEnv 0)
        (sampleConnection SessionStatus.kTangoSessionStatusProtocolNegotiated 0 0 0)).2.2 = [] := by
  decide

/-- C7, amended: in a state at or below ProtocolNegotiated `tango_test_connection`
returns -1, sends no ECHO and records `kTangoErrorGeneralSystemError`; in a state
above ProtocolNegotiated it sends one ECHO with count 2 and filler `'F'` (70) and
returns that ECHO's result and the connection ECHO left. -/
theorem tango_test_connection_gate (env : Env) (c : Connection) :
    (c.session_status.rank ≤ SessionStatus.kTangoSessionStatusProtocolNegotiated.rank →
      (tango_test_connection env c).1 = -1 ∧
      (tango_test_connection env c).2.2 = [] ∧
      (tango_test_connection env c).2.1.error = TangoError.kTangoErrorGeneralSystemError) ∧
    (SessionStatus.kTangoSessionStatusProtocolNegotiated.rank < c.session_status.rank →
      (tango_test_connection env c).1 = (env.ECHO c 2 70).1 ∧
      (tango_test_connection env c).2.1 = (env.ECHO c 2 70).2 ∧
      (tango_test_connection env c).2.2 = [Call.ECHO 2 70]) := by
  constructor
  · intro h
    simp [tango_test_connection, h, _tango_set_error]
  · intro h
    have h2 : ¬ c.session_status.rank ≤
        SessionStatus.kTangoSessionStatusProtocolNegotiated.rank := by omega
    simp [tango_test_connection, h2]

/-! ## C2: `tango_close` -/

/-- From LoggedIn and from ConnectedToShare `tango_close` does reset the local
state, whatever TREE_DISCONNECT and LOGOFF return: the state is Disconnected,
`uid = 0` and `session_flags = 0`. -/
theorem tango_close_from_logged_in (env : Env) (c : Connection)
    (h : SessionStatus.kTangoSessionStatusLoggedIn.rank ≤ c.session_status.rank) :
    (tango_close env c).1.session_status = SessionStatus.kTangoSessionStatusDisconnected ∧
    (tango_close env c).1.uid = 0 ∧
    (tango_close env c).1.session_flags = 0 := by
  cases hs : c.session_status <;>
    simp [hs, SessionStatus.rank] at h <;>
    simp [tango_close, closeTree, closeSession, hs, SessionStatus.rank]

/-- C2 at the failing input: a fresh connection on which `tango_connect` returns
0 because SESSION_SETUP fails is left in ProtocolNegotiated and satisfies the
invariant.  `tango_close` on it sends no command, closes the socket and clears
`socket`, but the state stays ProtocolNegotiated instead of Disconnected. -/
theorem tango_close_negotiated_not_reset :
    (tango_connect failingSetupEnv
        (sampleConnection SessionStatus.kTangoSessionStatusDisconnected 0 0 0)).1 = 0 ∧
    (tango_connect failingSetupEnv
        (sampleConnection SessionStatus.kTangoSessionStatusDisconnected 0 0 0)).2.1 =
      sampleConnection SessionStatus.kTangoSessionStatusProtocolNegotiated 0 0 0 ∧
    Invariant (sampleConnection SessionStatus.kTangoSessionStatusProtocolNegotiated 0 0 0) ∧
    (tango_close failingSetupEnv
        (sampleConnection SessionStatus.kTangoSessionStatusProtocolNegotiated 0 0 0)).2
      = [Call.close] ∧
    (tango_close failingSetupEnv
        (sampleConnection SessionStatus.kTangoSessionStatusProtocolNegotiated 0 0 0)).1.socket
      = 0 ∧
    (tango_close failingSetupEnv
        (sampleConnection SessionStatus.kTangoSessionStatusProtocolNegotiated 0 0 0)).1.session_status
      = SessionStatus.kTangoSessionStatusProtocolNegotiated ∧
    (tango_close failingSetupEnv
        (sampleConnection SessionStatus.kTangoSessionStatusProtocolNegotiated 0 0 0)).1.session_status
      ≠ SessionStatus.kTangoSessionStatusDisconnected := by
  decide

/-! ## C3: the share string stored by `tango_create` -/

/-- C3, as stated, fails for the form with a subpath: for `\\h\s\t`, whose host
resolves, the stored share string is `\\h\s`, not the remainder `s\t`. -/
theorem tango_create_subpath_not_remainder :
    address_for_host sampleSys [104] ≠ INADDR_NONE ∧
    storedShare (tango_create sampleSizes sampleSys 0 (unc [104] [115, 92, 116] ++ [NUL]) [0] [0])
      = some [92, 92, 104, 92, 115] ∧
    storedShare (tango_create sampleSizes sampleSys 0 (unc [104] [115, 92, 116] ++ [NUL]) [0] [0])
      ≠ some [115, 92, 116] := by
  decide

/-- C3, amended: the allocator and `socket()` succeed, the host resolves, host
and share contain neither NUL nor a backslash, the subpath no NUL, and the user
name and password fit their arrays with their terminators.
For `\\host\share` shorter than 64 bytes after the leading backslashes, with
`share` and its terminator fitting the share array, the stored share string is
`share`.
For `\\host\share\subpath` shorter than 64 bytes after the leading backslashes,
with the UNC up to its second separator and two more bytes fitting the share
array, the stored string is the UNC cut at its second separator, with or
without the leading `\\host\`: it is `share` or `\\host\share`, and holds
nothing of `\subpath`. -/
theorem tango_create_share (sz : Sizes) (sys : Sys) (next_mid : Nat)
    (host sh sub username password u p : List Nat)
    (hm : sys.malloc_ok = true) (hsock : 0 ≤ sys.socket)
    (hres : address_for_host sys host ≠ INADDR_NONE)
    (hh0 : NUL ∉ host) (hhb : BACKSLASH ∉ host)
    (hs0 : NUL ∉ sh) (hsb : BACKSLASH ∉ sh) (hsub0 : NUL ∉ sub)
    (hu : cstr username 0 = some u) (hp : cstr password 0 = some p)
    (hul : u.length + 1 ≤ sz.user_name) (hpl : p.length + 1 ≤ sz.user_password) :
    (host.length + 1 + sh.length < 64 → sh.length + 1 ≤ sz.share →
      storedShare (tango_create sz sys next_mid (unc host sh ++ [NUL]) username password)
        = some sh) ∧
    (host.length + 1 + sh.length + 1 + sub.length < 64 →
      (2 + host.length + 1 + sh.length) + 2 ≤ sz.share →
      storedShare (tango_create sz sys next_mid
          (unc host (sh ++ BACKSLASH :: sub) ++ [NUL]) username password) = some sh ∨
      storedShare (tango_create sz sys next_mid
          (unc host (sh ++ BACKSLASH :: sub) ++ [NUL]) username password) =
        some ([BACKSLASH, BACKSLASH] ++ host ++ BACKSLASH :: sh)) := by
  constructor
  · intro hlen hfit
    rw [tango_create_stored sz sys next_mid host sh username password u p hm hsock hh0 hhb hs0
      hlen hres hu hp (by omega) (by omega),
      storeShare_plain sz.share host sh hsb (by omega)]
    exact cstr_append_nul sh _ hs0
  · intro hlen hfit
    have hr0 : NUL ∉ sh ++ BACKSLASH :: sub := by
      intro hmem
      simp only [List.mem_append, List.mem_cons] at hmem
      rcases hmem with h | h | h
      · exact hs0 h
      · simp [NUL, BACKSLASH] at h
      · exact hsub0 h
    right
    rw [tango_create_stored sz sys next_mid host (sh ++ BACKSLASH :: sub) username password
      u p hm hsock hh0 hhb hr0 (by simp; omega) hres hu hp (by omega) (by omega)]
    exact storeShare_subpath sz.share host sh sub hsb hh0 hs0 (by omega)

/-- Witness for `tango_create_share`: host `h`, share `s`, subpath `t`, empty
user name and password, 64-byte arrays. -/
theorem tango_create_share_witness :
    address_for_host sampleSys [104] ≠ INADDR_NONE ∧
    storedShare (tango_create sampleSizes sampleSys 0 (unc [104] [115] ++ [NUL]) [0] [0])
      = some [115] ∧
    (storedShare (tango_create sampleSizes sampleSys 0
        (unc [104] ([115] ++ BACKSLASH :: [116]) ++ [NUL]) [0] [0]) = some [115] ∨
      storedShare (tango_create sampleSizes sampleSys 0
        (unc [104] ([115] ++ BACKSLASH :: [116]) ++ [NUL]) [0] [0]) =
        some ([BACKSLASH, BACKSLASH] ++ [104] ++ BACKSLASH :: [115])) :=
  ⟨by decide,
    (tango_create_share sampleSizes sampleSys 0 [104] [115] [116] [0] [0] [] []
      (by decide) (by decide) (by decide) (by decide) (by decide) (by decide) (by decide)
      (by decide) (by decide) (by decide) (by decide) (by decide)).1 (by decide) (by decide),
    (tango_create_share sampleSizes sampleSys 0 [104] [115] [116] [0] [0] [] []
      (by decide) (by decide) (by decide) (by decide) (by decide) (by decide) (by decide)
      (by decide) (by decide) (by decide) (by decide) (by decide)).2 (by decide) (by decide)⟩

/-! ## C4: `\\h\s` against `\\h\s\` -/

/-- For every host and share (within the bounds of the arrays), `\\host\share`
stores `share` while `\\host\share\` stores `\\host\share`. -/
theorem tango_create_trailing_backslash_general (sz : Sizes) (sys : Sys) (next_mid : Nat)
    (host sh username password u p : List Nat)
    (hm : sys.malloc_ok = true) (hsock : 0 ≤ sys.socket)
    (hres : address_for_host sys host ≠ INADDR_NONE)
    (hh0 : NUL ∉ host) (hhb : BACKSLASH ∉ host)
    (hs0 : NUL ∉ sh) (hsb : BACKSLASH ∉ sh)
    (hu : cstr username 0 = some u) (hp : cstr password 0 = some p)
    (hul : u.length < sz.user_name) (hpl : p.length < sz.user_password)
    (hlen : host.length + 1 + sh.length + 1 < 64)
    (hfit : host.length + sh.length + 5 ≤ sz.share) :
    storedShare (tango_create sz sys next_mid (unc host sh ++ [NUL]) username password)
      = some sh ∧
    storedShare (tango_create sz sys next_mid (unc host (sh ++ [BACKSLASH]) ++ [NUL])
        username password)
      = some ([BACKSLASH, BACKSLASH] ++ host ++ BACKSLASH :: sh) := by
  constructor
  · rw [tango_create_stored sz sys next_mid host sh username password u p hm hsock hh0 hhb hs0
      (by omega) hres hu hp hul hpl, storeShare_plain sz.share host sh hsb (by omega)]
    exact cstr_append_nul sh _ hs0
  · have hr0 : NUL ∉ sh ++ [BACKSLASH] := by
      intro hmem
      simp only [List.mem_append, List.mem_singleton] at hmem
      rcases hmem with h | h
      · exact hs0 h
      · simp [NUL, BACKSLASH] at h
    rw [tango_create_stored sz sys next_mid host (sh ++ [BACKSLASH]) username password
      u p hm hsock hh0 hhb hr0 (by simp; omega) hres hu hp hul hpl]
    exact storeShare_subpath sz.share host sh [] hsb hh0 hs0 hfit

/-- C4 at the failing input: for the host `h` and the share `s`, `tango_create`
stores `s` for `\\h\s` and `\\h\s` for `\\h\s\`; the two stored strings differ. -/
theorem tango_create_trailing_backslash_differs :
    storedShare (tango_create sampleSizes sampleSys 0 (unc [104] [115] ++ [NUL]) [0] [0])
      = some [115] ∧
    storedShare (tango_create sampleSizes sampleSys 0 (unc [104] [115, 92] ++ [NUL]) [0] [0])
      = some [92, 92, 104, 92, 115] ∧
    storedShare (tango_create sampleSizes sampleSys 0 (unc [104] [115] ++ [NUL]) [0] [0])
      ≠ storedShare
          (tango_create sampleSizes sampleSys 0 (unc [104] [115, 92] ++ [NUL]) [0] [0]) := by
  decide

/-! ## C5 and C6: `tango_create_file_info` -/

/-- For every parent and every zero-initialised output with room for the
strings, the output path read as a C string is the parent path and one
backslash; the parent filename lies behind the terminator. -/
theorem tango_create_file_info_path_general (c : Connection) (parent : FileInfo) (n m : Nat)
    (file_name : List Nat) (is_folder : Int) (name pp pf : List Nat)
    (hname : cstr file_name 0 = some name) (hpp : cstr parent.path 0 = some pp)
    (hpf : cstr parent.filename 0 = some pf)
    (hfit1 : name.length < m) (hfit2 : pp.length + pf.length + 3 ≤ n) :
    (tango_create_file_info c parent
        { filename := List.replicate m 0, path := List.replicate n 0,
          is_folder := 0, file_size := 0, fid := 0 } file_name is_folder).map
        (fun r => cstr r.2.path 0) = some (some (pp ++ [BACKSLASH])) := by
  have hpp0 : NUL ∉ pp := cstr_nonul _ _ _ hpp
  have hq0 : NUL ∉ pp ++ [BACKSLASH] := by
    intro hm
    simp only [List.mem_append, List.mem_singleton] at hm
    rcases hm with h | h
    · exact hpp0 h
    · simp [NUL, BACKSLASH] at h
  obtain ⟨k, hk⟩ : ∃ k, n = pp.length + 1 + (1 + (pf.length + 1 + k)) :=
    ⟨n - (pp.length + pf.length + 3), by omega⟩
  have e0 := strcpy_append [] (List.replicate m 0) name (by simp; omega)
  have e1 := strcpy_append [] (List.replicate n 0) pp (by simp; omega)
  simp only [List.nil_append, List.length_nil] at e0 e1
  have hd : (List.replicate n 0).drop (pp.length + 1) =
      NUL :: List.replicate (pf.length + 1 + k) 0 := by
    rw [hk, List.drop_replicate]
    have : pp.length + 1 + (1 + (pf.length + 1 + k)) - (pp.length + 1) =
        (pf.length + 1 + k) + 1 := by omega
    rw [this, List.replicate_succ]
    rfl
  rw [hd] at e1
  have e2 := writeAt_over_nul pp (NUL :: List.replicate (pf.length + 1 + k) 0) BACKSLASH
  have e3 : strlen (pp ++ BACKSLASH :: NUL :: List.replicate (pf.length + 1 + k) 0) 0 =
      some (pp.length + 1) := by
    have := strlen_append_nul (pp ++ [BACKSLASH]) (List.replicate (pf.length + 1 + k) 0) hq0
    simpa using this
  have e4 : strcpy (pp ++ BACKSLASH :: NUL :: List.replicate (pf.length + 1 + k) 0)
      (pp.length + 1 + 1) pf =
      some ((pp ++ [BACKSLASH, NUL]) ++ pf ++
        NUL :: (List.replicate (pf.length + 1 + k) 0).drop (pf.length + 1)) := by
    have := strcpy_append (pp ++ [BACKSLASH, NUL]) (List.replicate (pf.length + 1 + k) 0) pf
      (by simp)
    simpa using this
  have e5 : cstr ((pp ++ [BACKSLASH, NUL]) ++ pf ++
        NUL :: (List.replicate (pf.length + 1 + k) 0).drop (pf.length + 1)) 0 =
      some (pp ++ [BACKSLASH]) := by
    have := cstr_append_nul (pp ++ [BACKSLASH])
      (pf ++ NUL :: (List.replicate (pf.length + 1 + k) 0).drop (pf.length + 1)) hq0
    simpa using this
  simp only [tango_create_file_info, hname, hpp, hpf, e0, e1, Option.bind_eq_bind,
    Option.some_bind, strlen_append_nul pp _ hpp0, e2, e3, e4, Option.map_some', e5]

/-- C5 at the failing input: parent path `\d`, parent filename `f`, output
zero-initialised.  The output path read as a C string is `\d\`, not `\d\f`: the
filename is stored one byte past the terminator. -/
theorem tango_create_file_info_path_stops_at_backslash :
    (tango_create_file_info (zeroConnection sampleSizes) sampleParent zeroFileInfo [110, 0] 0).map
        (fun r => r.2.path) =
      some ([92, 100, 92, 0, 102] ++ List.replicate 11 0) ∧
    (tango_create_file_info (zeroConnection sampleSizes) sampleParent zeroFileInfo [110, 0] 0).map
        (fun r => cstr r.2.path 0) = some (some [92, 100, 92]) ∧
    (tango_create_file_info (zeroConnection sampleSizes) sampleParent zeroFileInfo [110, 0] 0).map
        (fun r => cstr r.2.path 0) ≠ some (some ([92, 100] ++ [92] ++ [102])) := by
  decide

/-- Whenever `tango_create_file_info` returns, the output keeps the `is_folder`
it had, and the parent holds the `is_folder` argument and `file_size = 0`. -/
theorem tango_create_file_info_flag_general (c : Connection) (parent out : FileInfo)
    (file_name : List Nat) (is_folder : Int) (r : FileInfo × FileInfo)
    (h : tango_create_file_info c parent out file_name is_folder = some r) :
    r.2.is_folder = out.is_folder ∧ r.1.is_folder = is_folder ∧ r.1.file_size = 0 := by
  simp only [tango_create_file_info, Option.bind_eq_bind, Option.bind_eq_some,
    Option.some.injEq] at h
  obtain ⟨_, _, _, _, _, _, _, _, _, _, _, _, _, _, _, _, _, _, rfl⟩ := h
  simp

/-- C6 at the failing input: output with `is_folder = 0`, called with
`is_folder = 1` and the name `n`.  The output gets the name, but its `is_folder`
stays 0; the flag (and a zero `file_size`) is written to the parent. -/
theorem tango_create_file_info_flag_goes_to_parent :
    (tango_create_file_info (zeroConnection sampleSizes)
        { sampleParent with is_folder := 0 } zeroFileInfo [110, 0] 1).map
        (fun r => (cstr r.2.filename 0, r.2.is_folder, r.1.is_folder, r.1.file_size)) =
      some (some [110], 0, 1, 0) := by
  decide

/-! ## C9: `tango_list_directory` -/

/-- C9: for a directory whose path `p` and filename `f` have lengths summing to
less than 254, and whatever the local 256-byte array holds on entry,
`tango_list_directory` calls FIND_FIRST2 once with the pattern `p ++ f ++ "\*"`,
the caller's array and size, and returns its result.  For the file info made by
`tango_create_root_file_info` the pattern is `\*`. -/
theorem tango_list_directory_pattern (env : Env) (sp : List Nat) (c : Connection)
    (dir : FileInfo) (arr : List FileInfo) (size : Nat) (p f : List Nat)
    (hsp : sp.length = 256) (hp : cstr dir.path 0 = some p)
    (hf : cstr dir.filename 0 = some f) (hlen : p.length + f.length < 254) :
    tango_list_directory env sp c dir arr size =
      some ((env.TRANS2_FIND_FIRST2 c (p ++ f ++ [BACKSLASH, STAR]) arr size).1,
        (env.TRANS2_FIND_FIRST2 c (p ++ f ++ [BACKSLASH, STAR]) arr size).2.1,
        (env.TRANS2_FIND_FIRST2 c (p ++ f ++ [BACKSLASH, STAR]) arr size).2.2,
        [Call.TRANS2_FIND_FIRST2 (p ++ f ++ [BACKSLASH, STAR]) arr size]) ∧
    (∀ root : FileInfo, 0 < root.filename.length → 0 < root.path.length →
      ∃ r, tango_create_root_file_info c root = some r ∧
        tango_list_directory env sp c r arr size =
          some ((env.TRANS2_FIND_FIRST2 c [BACKSLASH, STAR] arr size).1,
            (env.TRANS2_FIND_FIRST2 c [BACKSLASH, STAR] arr size).2.1,
            (env.TRANS2_FIND_FIRST2 c [BACKSLASH, STAR] arr size).2.2,
            [Call.TRANS2_FIND_FIRST2 [BACKSLASH, STAR] arr size])) := by
  refine ⟨tango_list_directory_eq env sp c dir arr size p f hsp hp hf hlen, ?_⟩
  intro root hfn hpa
  have e1 := strcpy_append [] root.filename [] (by simpa using hfn)
  have e2 := strcpy_append [] root.path [] (by simpa using hpa)
  simp only [List.nil_append, List.length_nil] at e1 e2
  refine ⟨FileInfo.mk (NUL :: root.filename.drop 1) (NUL :: root.path.drop 1) 1 0 root.fid,
    ?_, ?_⟩
  · simp [tango_create_root_file_info, e1, e2]
  · have := tango_list_directory_eq env sp c
      (FileInfo.mk (NUL :: root.filename.drop 1) (NUL :: root.path.drop 1) 1 0 root.fid)
      arr size [] [] hsp (cstr_append_nul [] _ (by simp)) (cstr_append_nul [] _ (by simp))
      (by simp)
    simpa using this

/-- Witness for `tango_list_directory_pattern`: the directory `\d` + `f` and a
local array full of the byte 7; the pattern passed is `\df\*`. -/
theorem tango_list_directory_pattern_witness :
    tango_list_directory (constEnv 4) (List.replicate 256 7) (zeroConnection sampleSizes)
        sampleParent [zeroFileInfo] 1 =
      some (4, zeroConnection sampleSizes, [zeroFileInfo],
        [Call.TRANS2_FIND_FIRST2 [92, 100, 102, 92, 42] [zeroFileInfo] 1]) :=
  (tango_list_directory_pattern (constEnv 4) (List.replicate 256 7) (zeroConnection sampleSizes)
    sampleParent [zeroFileInfo] 1 [92, 100] [102]
    (List.length_replicate 256 7) (by decide) (by decide) (by decide)).1

end Tango
